import Mathlib

/-!
Verification of the NT106 load-balancer and TCP-messenger core
(NT106/core/load_balancer.py and NT106/core/tcp_messenger.py),
shallowly embedded in Lean 4.

Sockets, threads and wall-clock time are modelled explicitly: a
connection's recv results become a list of events, probe outcomes
become an inductive type, and the two byte-copy threads of the TCP
relay become a step function driven by an explicit schedule.
-/

/-! ## Backend data model (class BackendServer) -/

/-- State of one backend server, mirroring BackendServer.__init__:
healthy starts true, counters start at 0, last_check starts None.
Timestamps are abstracted to natural numbers. -/
structure Backend where
  host : String
  port : Nat
  weight : Nat
  healthy : Bool
  connections : Nat
  total_requests : Nat
  failed_checks : Nat
  last_check : Option Nat
deriving DecidableEq

/-- Placeholder backend used only as the default of List.getD; the
source indexes a list Python-side, where an empty weighted list would
raise instead (all claims assume positive weights, so the weighted
list is never empty where this matters). -/
def dummyBackend : Backend :=
  { host := "", port := 0, weight := 1, healthy := true,
    connections := 0, total_requests := 0, failed_checks := 0, last_check := none }

/-! ## HTTP load balancer state (class LoadBalancer) -/

/-- Mutable state of the HTTP LoadBalancer: the ordered backend pool
and the shared scheduling cursor current_backend_index. -/
structure LBState where
  backends : List Backend
  current_backend_index : Nat
deriving DecidableEq

/-- LoadBalancer.__init__: empty pool, cursor 0. -/
def initLB : LBState := { backends := [], current_backend_index := 0 }

/-- BackendServer.__init__: a fresh backend with healthy true and all
counters zero. -/
def freshBackend (host : String) (port : Nat) (weight : Nat) : Backend :=
  { host := host, port := port, weight := weight, healthy := true,
    connections := 0, total_requests := 0, failed_checks := 0, last_check := none }

/-- LoadBalancer.add_backend: append a fresh BackendServer to the pool. -/
def add_backend (st : LBState) (host : String) (port : Nat) (weight : Nat) : LBState :=
  { st with backends := st.backends ++ [freshBackend host port weight] }

/-- The weighted expansion built inside get_next_backend: each backend
contributes weight consecutive copies, in pool order. -/
def buildWeighted : List Backend → List Backend
  | [] => []
  | b :: rest => List.replicate b.weight b ++ buildWeighted rest

/-- LoadBalancer.get_next_backend: return None on an empty pool or when
no backend is healthy; otherwise index the freshly built weighted
expansion of the healthy sublist by the cursor modulo its length, and
increment the cursor. Returns the selection together with the updated
state. -/
def get_next_backend (st : LBState) : Option Backend × LBState :=
  if st.backends.isEmpty then (none, st)
  else
    let healthy_backends := st.backends.filter (fun b => b.healthy)
    if healthy_backends.isEmpty then (none, st)
    else
      let weighted_list := buildWeighted healthy_backends
      let backend := weighted_list.getD (st.current_backend_index % weighted_list.length) dummyBackend
      (some backend, { st with current_backend_index := st.current_backend_index + 1 })

/-- Run get_next_backend n times, collecting the selections in order. -/
def selectN : Nat → LBState → List (Option Backend) × LBState
  | 0, st => ([], st)
  | n + 1, st =>
    let r := get_next_backend st
    let rest := selectN n r.2
    (r.1 :: rest.1, rest.2)

/-! ## Health checking (LoadBalancer.check_health) -/

/-- Outcome of one liveness probe: an HTTP response with some status
code, or an exception (timeout, connection refused). -/
inductive ProbeOutcome where
  | status (code : Nat)
  | exc
deriving DecidableEq

/-- True exactly when the probe outcome takes the success branch of
check_health (an HTTP response with status code 200). -/
def isSuccessProbe : ProbeOutcome → Bool
  | .status code => code == 200
  | .exc => false

/-- LoadBalancer.check_health on one backend, given the probe outcome
and the current time: status 200 restores healthy and zeroes the
failure counter; any other status or an exception increments the
counter, and the backend is marked unhealthy once the counter
reaches 3. Returns the updated backend and the boolean return value. -/
def check_health (b : Backend) (o : ProbeOutcome) (now : Nat) : Backend × Bool :=
  let fail := fun (b : Backend) =>
    let b1 := { b with failed_checks := b.failed_checks + 1 }
    let b2 := if b1.failed_checks ≥ 3 then { b1 with healthy := false } else b1
    ({ b2 with last_check := some now }, false)
  match o with
  | .status code =>
    if code = 200 then
      ({ b with healthy := true, failed_checks := 0, last_check := some now }, true)
    else fail b
  | .exc => fail b

/-! ## HTTP request reading (LoadBalancer.handle_http_connection) -/

/-- One result of client_socket.recv in the request-reading loop:
a nonempty chunk of bytes, an empty result (peer closed), or the
5-second idle timeout firing. Bytes are modelled as characters (the
claims use ASCII payloads, where the two coincide). -/
inductive RecvEvent where
  | chunk (s : List Char)
  | eof
  | timeout
deriving DecidableEq

/-- Index of the first occurrence of pat in s, the translation of
Python bytes.find; none when pat does not occur. -/
def findSeq (pat : List Char) : List Char → Option Nat
  | [] => if pat.isEmpty then some 0 else none
  | c :: rest =>
    if pat.isPrefixOf (c :: rest) then some 0
    else (findSeq pat rest).map (· + 1)

/-- Containment, the translation of the Python operator "pat in s". -/
def hasSeq (s pat : List Char) : Bool := (findSeq pat s).isSome

/-- The request-reading while-loop of handle_http_connection, driven by
the list of recv results. An empty recv or a timeout exits the loop
with the buffer as read. After a chunk, if the header terminator is
present and no Content-Length header exists the loop exits; when a
Content-Length header does exist, the source compares body_received
against content_length, but the break there exits only the inner
for-loop over header lines, so the outer while-loop keeps receiving
until eof or timeout regardless of that comparison. -/
def readRequest : List RecvEvent → List Char → List Char
  | [], buf => buf
  | RecvEvent.eof :: _, buf => buf
  | RecvEvent.timeout :: _, buf => buf
  | RecvEvent.chunk s :: rest, buf =>
    let buf1 := buf ++ s
    if hasSeq buf1 "\r\n\r\n".data then
      let headers_end := (findSeq "\r\n\r\n".data buf1).getD 0
      let headers := buf1.take headers_end
      if hasSeq headers "Content-Length:".data then
        readRequest rest buf1
      else buf1
    else readRequest rest buf1

/-- What handle_http_connection does once the reading loop has exited,
as far as backend traffic is concerned. -/
inductive HttpOutcome where
  | closedNoForward
  | respond503
  | forward (b : Backend) (data : List Char)
deriving DecidableEq

/-- The decision handle_http_connection takes after the reading loop:
an empty buffer closes the connection with no backend touched; with a
nonempty buffer the scheduler is consulted, a failed selection answers
503 Service Unavailable, and a successful one forwards the whole
buffered request to the selected backend. -/
def handleAfterRead (st : LBState) (request_data : List Char) : HttpOutcome × LBState :=
  if request_data.isEmpty then (HttpOutcome.closedNoForward, st)
  else
    let r := get_next_backend st
    match r.1 with
    | none => (HttpOutcome.respond503, r.2)
    | some b => (HttpOutcome.forward b request_data, r.2)

/-- The except-branch of the forwarding stage of handle_http_connection:
on any proxy error the client is sent a 502 line and the backend is
marked unhealthy directly; failed_checks is not touched. Returns the
updated backend and the bytes written to the client. -/
def handleForwardError (b : Backend) : Backend × String :=
  ({ b with healthy := false }, "HTTP/1.1 502 Bad Gateway\r\n\r\n")

/-! ## TCP load balancer (class TCPLoadBalancer) -/

/-- A TCP backend entry as created by TCPLoadBalancer.add_backend:
a dict with host, port and a healthy flag (no weight field). -/
structure TCPBackend where
  host : String
  port : Nat
  healthy : Bool
deriving DecidableEq

/-- Mutable state of the TCPLoadBalancer: the pool and its own cursor
current_index, a field separate from the HTTP balancer's cursor. -/
structure TCPState where
  backends : List TCPBackend
  current_index : Nat
deriving DecidableEq

/-- TCPLoadBalancer.__init__: empty pool, cursor 0. -/
def initTCP : TCPState := { backends := [], current_index := 0 }

/-- TCPLoadBalancer.add_backend: append a backend with healthy true. -/
def tcp_add_backend (st : TCPState) (host : String) (port : Nat) : TCPState :=
  { st with backends := st.backends ++ [{ host := host, port := port, healthy := true }] }

/-- TCPLoadBalancer.get_next_backend: plain round-robin over the whole
pool, indexing by the cursor modulo the pool length; no filtering on
the healthy flag and no weights. -/
def tcp_get_next_backend (st : TCPState) : Option TCPBackend × TCPState :=
  if st.backends.isEmpty then (none, st)
  else
    (some (st.backends.getD (st.current_index % st.backends.length)
        { host := "", port := 0, healthy := true }),
     { st with current_index := st.current_index + 1 })

/-- The discipline the spec ascribes to the TCP relay, stated from the
spec's words for comparison with tcp_get_next_backend: a weight
expansion over the currently-healthy subset in pool order (TCP
backends carry no weight field, so every weight is 1 and the expansion
is the healthy sublist itself). -/
def claimedTcpSelect (st : TCPState) : Option TCPBackend × TCPState :=
  let healthy := st.backends.filter (fun b => b.healthy)
  if healthy.isEmpty then (none, st)
  else
    (some (healthy.getD (st.current_index % healthy.length)
        { host := "", port := 0, healthy := true }),
     { st with current_index := st.current_index + 1 })

/-! ## TCP relay bidirectional forwarding
(TCPLoadBalancer.handle_tcp_connection)

The two forward threads share the client and backend sockets. Each
thread's loop is modelled as a step function; thread scheduling is an
explicit list of directions to step. -/

/-- State of one direction's forward task: bytes its source peer has
written and not yet received, whether the source peer has closed its
write side, the bytes delivered to the destination so far, and whether
the task has finished. -/
structure CopyTask where
  pending : List Nat
  srcEof : Bool
  delivered : List Nat
  done : Bool
deriving DecidableEq

/-- The connection-scoped state handle_tcp_connection builds: the two
forward tasks plus the close flags of the two sockets (set by whichever
task closes them). -/
structure TcpConn where
  c2b : CopyTask
  b2c : CopyTask
  clientClosed : Bool
  backendClosed : Bool
deriving DecidableEq

/-- The two forwarding directions. -/
inductive Dir where
  | c2b
  | b2c
deriving DecidableEq

/-- The socket a direction reads from: client for client-to-backend,
backend for backend-to-client. -/
def srcClosed (s : TcpConn) : Dir → Bool
  | .c2b => s.clientClosed
  | .b2c => s.backendClosed

/-- The socket a direction writes to. -/
def dstClosed (s : TcpConn) : Dir → Bool
  | .c2b => s.backendClosed
  | .b2c => s.clientClosed

/-- Read task state of a direction. -/
def getTask (s : TcpConn) : Dir → CopyTask
  | .c2b => s.c2b
  | .b2c => s.b2c

/-- Replace task state of a direction. -/
def setTask (s : TcpConn) (d : Dir) (t : CopyTask) : TcpConn :=
  match d with
  | .c2b => { s with c2b := t }
  | .b2c => { s with b2c := t }

/-- Both source.close() and destination.close() of the finally block. -/
def closeBoth (s : TcpConn) : TcpConn :=
  { s with clientClosed := true, backendClosed := true }

/-- One scheduling step of the forward(source, destination) loop for a
direction. recv on a socket the other task has closed raises, caught
by the bare except, and the finally block closes both sockets; a
nonempty recv relays the data unless the destination has been closed
(sendall then raises and the finally closes both); an empty recv after
the peer closed breaks the loop and the finally closes both sockets;
otherwise recv blocks and the step is a no-op. -/
def stepForward (s : TcpConn) (d : Dir) : TcpConn :=
  let t := getTask s d
  if t.done then s
  else if srcClosed s d then
    setTask (closeBoth s) d { t with done := true }
  else if ¬t.pending.isEmpty then
    if dstClosed s d then
      setTask (closeBoth s) d { t with done := true }
    else
      setTask s d { t with pending := [], delivered := t.delivered ++ t.pending }
  else if t.srcEof then
    setTask (closeBoth s) d { t with done := true }
  else s

/-- Run the two forward threads under an explicit schedule. -/
def runSched : List Dir → TcpConn → TcpConn
  | [], s => s
  | d :: rest, s => runSched rest (stepForward s d)

/-- handle_tcp_connection joins both forward threads before finishing:
the handler is done exactly when both tasks are done. -/
def handlerDone (s : TcpConn) : Bool := (getTask s .c2b).done && (getTask s .b2c).done

/-- The connection state of the C6 scenario: the client writes nothing
and closes its side; the backend writes 100 bytes and closes its side. -/
def c6Init : TcpConn :=
  { c2b := { pending := [], srcEof := true, delivered := [], done := false },
    b2c := { pending := List.range 100, srcEof := true, delivered := [], done := false },
    clientClosed := false,
    backendClosed := false }

/-! ## TCP messenger (class TCPMessenger) -/

/-- The JSON object of one inbound frame, as far as _handle_client
inspects it: each field may be absent. -/
structure Frame where
  sender : Option String
  recipient : Option String
  body : Option String
  encrypted : Option Bool
  timestamp : Option String
deriving DecidableEq

/-- A record as stored in the message queue: the frame's fields with
timestamp overwritten by the server's receipt time and delivered set. -/
structure StoredMsg where
  sender : Option String
  recipient : Option String
  body : Option String
  encrypted : Option Bool
  timestamp : String
  delivered : Bool
deriving DecidableEq

/-- What one recv on a messenger connection yields: no data at all,
data that json.loads rejects (the exception text is carried), or a
parsed JSON object. -/
inductive Inbound where
  | empty
  | malformed (excText : String)
  | frame (f : Frame)
deriving DecidableEq

/-- The acknowledgment object sent back to the sender. -/
structure Ack where
  status : String
  message : String
deriving DecidableEq

/-- The in-memory message queue, a dict from recipient to pending
records, modelled as an association list in insertion order. -/
abbrev MsgQueue := List (String × List StoredMsg)

/-- Dict lookup: message_queue.get(key). -/
def lookupQ : MsgQueue → String → Option (List StoredMsg)
  | [], _ => none
  | (k, v) :: rest, key => if k = key then some v else lookupQ rest key

/-- Dict store: message_queue[key] = value (updates an existing key in
place, otherwise appends a new one). -/
def setQ : MsgQueue → String → List StoredMsg → MsgQueue
  | [], key, value => [(key, value)]
  | (k, v) :: rest, key, value =>
    if k = key then (k, value) :: rest else (k, v) :: setQ rest key value

/-- TCPMessenger._handle_client on one connection, given the recv
result and the server's current time: no data means return without
replying; a JSON parse failure is caught and answered with an error
acknowledgment carrying the exception text; a parsed object with a
truthy recipient (present and nonempty) gets its timestamp replaced by
the receipt time, delivered set, is appended to that recipient's queue
and acknowledged with success; a missing or empty recipient is
answered with a No-recipient error and nothing is enqueued. -/
def handle_client (q : MsgQueue) (inb : Inbound) (now : String) : MsgQueue × Option Ack :=
  match inb with
  | .empty => (q, none)
  | .malformed e => (q, some { status := "error", message := e })
  | .frame f =>
    match f.recipient with
    | some r =>
      if r = "" then (q, some { status := "error", message := "No recipient" })
      else
        let cur := (lookupQ q r).getD []
        let stored : StoredMsg :=
          { sender := f.sender, recipient := f.recipient, body := f.body,
            encrypted := f.encrypted, timestamp := now, delivered := true }
        (setQ q r (cur ++ [stored]), some { status := "success", message := "Delivered" })
    | none => (q, some { status := "error", message := "No recipient" })

/-- TCPMessenger.send_message: build the frame from the arguments with
a client-side timestamp, deliver it to the server's handler, and
report success exactly when the acknowledgment parses with status
success. Returns the server's updated queue and the boolean result. -/
def send_message (q : MsgQueue) (sender recipient body : String) (encrypted : Bool)
    (clientTime serverTime : String) : MsgQueue × Bool :=
  let f : Frame :=
    { sender := some sender, recipient := some recipient, body := some body,
      encrypted := some encrypted, timestamp := some clientTime }
  let r := handle_client q (.frame f) serverTime
  match r.2 with
  | some a => (r.1, a.status == "success")
  | none => (r.1, false)

/-- TCPMessenger.get_messages: copy the user's pending list (empty when
the key is absent); with mark_read the stored list is reset to the
empty list. Returns the messages and the updated queue. -/
def get_messages (q : MsgQueue) (user : String) (mark_read : Bool) :
    List StoredMsg × MsgQueue :=
  match lookupQ q user with
  | none => ([], q)
  | some msgs => (msgs, if mark_read then setQ q user [] else q)

/-! ## Helper lemmas -/

/-- A failed probe (non-200 status or an exception) increments the
failure counter; the healthy flag drops to false exactly when the new
counter value reaches the threshold 3, and is otherwise untouched. -/
theorem check_health_fail (b : Backend) (o : ProbeOutcome) (t : Nat)
    (h : isSuccessProbe o = false) :
    (check_health b o t).1.failed_checks = b.failed_checks + 1 ∧
    (check_health b o t).1.healthy =
      (if b.failed_checks + 1 ≥ 3 then false else b.healthy) := by
  cases o with
  | status code =>
    simp [isSuccessProbe] at h
    simp [check_health, h]
    split <;> simp <;> intro hx <;> omega
  | exc =>
    simp [check_health]
    split <;> simp <;> intro hx <;> omega

/-- A 200 probe restores the healthy flag and zeroes the counter. -/
theorem check_health_success (b : Backend) (t : Nat) :
    (check_health b (ProbeOutcome.status 200) t).1.healthy = true ∧
    (check_health b (ProbeOutcome.status 200) t).1.failed_checks = 0 := by
  simp [check_health]

/-- Looking up the key just stored finds the stored value. -/
theorem lookupQ_setQ_same (q : MsgQueue) (k : String) (v : List StoredMsg) :
    lookupQ (setQ q k v) k = some v := by
  induction q with
  | nil => simp [setQ, lookupQ]
  | cons hd tl ih =>
    by_cases h : hd.1 = k
    · simp [setQ, lookupQ, h]
    · simp [setQ, lookupQ, h, ih]

/-- get_next_backend yields no backend exactly when every backend of
the pool is unhealthy (vacuously so for an empty pool). -/
theorem gnb_none_iff (st : LBState) :
    (get_next_backend st).1 = none ↔ ∀ b ∈ st.backends, b.healthy = false := by
  unfold get_next_backend
  by_cases he : st.backends.isEmpty
  · simp [he, List.isEmpty_iff.mp he]
  · by_cases hh : (st.backends.filter (fun b => b.healthy)).isEmpty
    · have hfe : st.backends.filter (fun b => b.healthy) = [] := List.isEmpty_iff.mp hh
      have hall : ∀ b ∈ st.backends, b.healthy = false := by
        intro b hb
        by_contra hc
        have hbmem : b ∈ st.backends.filter (fun b => b.healthy) :=
          List.mem_filter.mpr ⟨hb, by simpa using hc⟩
        simp [hfe] at hbmem
      simp [he, hh]
      exact hall
    · have hne : st.backends.filter (fun b => b.healthy) ≠ [] := by
        intro hc
        rw [hc] at hh
        simp at hh
      obtain ⟨b, hb⟩ := List.exists_mem_of_ne_nil _ hne
      have hbm := List.mem_filter.mp hb
      simp only [he, hh, if_false, Bool.false_eq_true]
      constructor
      · intro hc
        exact absurd hc (by simp)
      · intro hc
        have := hc b hbm.1
        simp [this] at hbm

/-! ## Claim theorems -/

set_option maxHeartbeats 1000000 in
/-- C1: for a pool of three healthy backends with weights 3, 2, 1 added
in that order, seven consecutive get_next_backend calls select the
first backend three times, the second twice and the third once,
consecutively in pool order, and the seventh call restarts the cycle
at the first backend. -/
theorem c1_weighted_cycle (h1 h2 h3 : String) (p1 p2 p3 : Nat) :
    (selectN 7 (add_backend (add_backend (add_backend initLB h1 p1 3) h2 p2 2) h3 p3 1)).1 =
      [some (freshBackend h1 p1 3), some (freshBackend h1 p1 3), some (freshBackend h1 p1 3),
       some (freshBackend h2 p2 2), some (freshBackend h2 p2 2),
       some (freshBackend h3 p3 1), some (freshBackend h1 p1 3)] := by
  simp [selectN, get_next_backend, add_backend, initLB, buildWeighted, freshBackend]

/-- C2: starting from a healthy backend with a clean failure counter,
two consecutive failed probes leave it healthy, the third failed probe
marks it unhealthy, and a single subsequent 200 probe restores the
healthy flag and resets the counter to zero. -/
theorem c2_health_hysteresis (b : Backend) (o1 o2 o3 : ProbeOutcome) (t1 t2 t3 t4 : Nat)
    (hh : b.healthy = true) (hf : b.failed_checks = 0)
    (h1 : isSuccessProbe o1 = false) (h2 : isSuccessProbe o2 = false)
    (h3 : isSuccessProbe o3 = false) :
    (check_health b o1 t1).1.healthy = true ∧
    (check_health (check_health b o1 t1).1 o2 t2).1.healthy = true ∧
    (check_health (check_health (check_health b o1 t1).1 o2 t2).1 o3 t3).1.healthy = false ∧
    (check_health (check_health (check_health (check_health b o1 t1).1 o2 t2).1 o3 t3).1
        (ProbeOutcome.status 200) t4).1.healthy = true ∧
    (check_health (check_health (check_health (check_health b o1 t1).1 o2 t2).1 o3 t3).1
        (ProbeOutcome.status 200) t4).1.failed_checks = 0 := by
  obtain ⟨f1, g1⟩ := check_health_fail b o1 t1 h1
  obtain ⟨f2, g2⟩ := check_health_fail (check_health b o1 t1).1 o2 t2 h2
  obtain ⟨f3, g3⟩ := check_health_fail (check_health (check_health b o1 t1).1 o2 t2).1 o3 t3 h3
  obtain ⟨s4h, s4f⟩ :=
    check_health_success (check_health (check_health (check_health b o1 t1).1 o2 t2).1 o3 t3).1 t4
  refine ⟨?_, ?_, ?_, s4h, s4f⟩
  · rw [g1, hf]; simp [hh]
  · rw [g2, f1, hf]; simp; rw [g1, hf]; simp [hh]
  · rw [g3, f2, f1, hf]; simp

/-- C2 witness: the hysteresis run on a concrete fresh backend with
three probe exceptions at times 1, 2, 3 and a 200 probe at time 4. -/
theorem c2_health_hysteresis_witness :
    (check_health (freshBackend "h" 1 1) ProbeOutcome.exc 1).1.healthy = true ∧
    (check_health (check_health (freshBackend "h" 1 1) ProbeOutcome.exc 1).1
        ProbeOutcome.exc 2).1.healthy = true ∧
    (check_health (check_health (check_health (freshBackend "h" 1 1) ProbeOutcome.exc 1).1
        ProbeOutcome.exc 2).1 ProbeOutcome.exc 3).1.healthy = false ∧
    (check_health (check_health (check_health (check_health (freshBackend "h" 1 1)
        ProbeOutcome.exc 1).1 ProbeOutcome.exc 2).1 ProbeOutcome.exc 3).1
        (ProbeOutcome.status 200) 4).1.healthy = true ∧
    (check_health (check_health (check_health (check_health (freshBackend "h" 1 1)
        ProbeOutcome.exc 1).1 ProbeOutcome.exc 2).1 ProbeOutcome.exc 3).1
        (ProbeOutcome.status 200) 4).1.failed_checks = 0 :=
  c2_health_hysteresis (freshBackend "h" 1 1) ProbeOutcome.exc ProbeOutcome.exc ProbeOutcome.exc
    1 2 3 4 rfl rfl rfl rfl rfl

/-- C3 counterexample: on a healthy backend with failure counter 0, a
forwarding error does not increment the counter and does not leave the
backend healthy, contradicting the claim that forwarding failures pass
through the same consecutive-failure counter as probes and only the
third strike evicts. -/
theorem c3_counterexample :
    ¬((handleForwardError (freshBackend "h" 1 1)).1.failed_checks =
        (freshBackend "h" 1 1).failed_checks + 1 ∧
      (handleForwardError (freshBackend "h" 1 1)).1.healthy = true) := by
  decide

/-- C3 amended: on any forwarding error the relay writes a 502 Bad
Gateway line to the client and sets the backend's healthy flag to
false directly, leaving the failure counter untouched — a single
forwarding failure evicts the backend immediately, bypassing the
3-strike counter used by the probe path. -/
theorem c3_forward_error_evicts (b : Backend) :
    (handleForwardError b).1.healthy = false ∧
    (handleForwardError b).1.failed_checks = b.failed_checks ∧
    (handleForwardError b).2 = "HTTP/1.1 502 Bad Gateway\r\n\r\n" := by
  simp [handleForwardError]

/-- C4 counterexample: a request declaring Content-Length 50 with only
30 body bytes, followed by the idle timeout, does not close with zero
bytes forwarded: the reading loop returns the partial request, and the
handler selects a backend and forwards those bytes to it (here a pool
with one healthy backend), contrary to the claim that no backend is
selected and nothing is forwarded. -/
theorem c4_counterexample :
    readRequest [RecvEvent.chunk
        "POST / HTTP/1.1\r\nContent-Length: 50\r\n\r\naaaaaaaaaaaaaaaaaaaaaaaaaaaaaa".data,
      RecvEvent.timeout] [] =
      "POST / HTTP/1.1\r\nContent-Length: 50\r\n\r\naaaaaaaaaaaaaaaaaaaaaaaaaaaaaa".data ∧
    (handleAfterRead (add_backend initLB "A" 1 1)
        (readRequest [RecvEvent.chunk
          "POST / HTTP/1.1\r\nContent-Length: 50\r\n\r\naaaaaaaaaaaaaaaaaaaaaaaaaaaaaa".data,
          RecvEvent.timeout] [])).1 =
      HttpOutcome.forward (freshBackend "A" 1 1)
        "POST / HTTP/1.1\r\nContent-Length: 50\r\n\r\naaaaaaaaaaaaaaaaaaaaaaaaaaaaaa".data ∧
    (handleAfterRead (add_backend initLB "A" 1 1)
        (readRequest [RecvEvent.chunk
          "POST / HTTP/1.1\r\nContent-Length: 50\r\n\r\naaaaaaaaaaaaaaaaaaaaaaaaaaaaaa".data,
          RecvEvent.timeout] [])).1 ≠ HttpOutcome.closedNoForward := by
  decide

/-- C4 amended: when the idle timeout fires on a request whose declared
Content-Length exceeds the received body, the reading loop exits with
the partial request buffered, and because the buffer is nonempty the
relay selects a backend and forwards the partial request to it; the
connection is closed with no forwarding only when no bytes at all were
received. -/
theorem c4_timeout_forwards_partial (st : LBState) (b : Backend)
    (h : (get_next_backend st).1 = some b) :
    readRequest [RecvEvent.chunk
        "POST / HTTP/1.1\r\nContent-Length: 50\r\n\r\naaaaaaaaaaaaaaaaaaaaaaaaaaaaaa".data,
      RecvEvent.timeout] [] =
      "POST / HTTP/1.1\r\nContent-Length: 50\r\n\r\naaaaaaaaaaaaaaaaaaaaaaaaaaaaaa".data ∧
    (handleAfterRead st
        "POST / HTTP/1.1\r\nContent-Length: 50\r\n\r\naaaaaaaaaaaaaaaaaaaaaaaaaaaaaa".data).1 =
      HttpOutcome.forward b
        "POST / HTTP/1.1\r\nContent-Length: 50\r\n\r\naaaaaaaaaaaaaaaaaaaaaaaaaaaaaa".data ∧
    (∀ st2 : LBState, handleAfterRead st2 [] = (HttpOutcome.closedNoForward, st2)) := by
  refine ⟨by decide, ?_, fun st2 => rfl⟩
  simp [handleAfterRead, h]

/-- C4 amended witness: the partial-request forwarding evaluated on a
pool holding one healthy backend. -/
theorem c4_timeout_forwards_partial_witness :
    readRequest [RecvEvent.chunk
        "POST / HTTP/1.1\r\nContent-Length: 50\r\n\r\naaaaaaaaaaaaaaaaaaaaaaaaaaaaaa".data,
      RecvEvent.timeout] [] =
      "POST / HTTP/1.1\r\nContent-Length: 50\r\n\r\naaaaaaaaaaaaaaaaaaaaaaaaaaaaaa".data ∧
    (handleAfterRead (add_backend initLB "W" 7 2)
        "POST / HTTP/1.1\r\nContent-Length: 50\r\n\r\naaaaaaaaaaaaaaaaaaaaaaaaaaaaaa".data).1 =
      HttpOutcome.forward (freshBackend "W" 7 2)
        "POST / HTTP/1.1\r\nContent-Length: 50\r\n\r\naaaaaaaaaaaaaaaaaaaaaaaaaaaaaa".data ∧
    (∀ st2 : LBState, handleAfterRead st2 [] = (HttpOutcome.closedNoForward, st2)) :=
  c4_timeout_forwards_partial (add_backend initLB "W" 7 2) (freshBackend "W" 7 2) (by decide)

/-- C5 counterexample: with a pool of a healthy backend followed by an
unhealthy one and cursor 1, the TCP scheduler selects the unhealthy
backend, while the discipline the claim describes (rotation over the
currently-healthy subset) would select the healthy one; the two
selections differ. -/
theorem c5_counterexample :
    (tcp_get_next_backend ⟨[⟨"A", 1, true⟩, ⟨"B", 2, false⟩], 1⟩).1 =
      some ⟨"B", 2, false⟩ ∧
    (TCPBackend.mk "B" 2 false).healthy = false ∧
    (claimedTcpSelect ⟨[⟨"A", 1, true⟩, ⟨"B", 2, false⟩], 1⟩).1 = some ⟨"A", 1, true⟩ ∧
    (tcp_get_next_backend ⟨[⟨"A", 1, true⟩, ⟨"B", 2, false⟩], 1⟩).1 ≠
      (claimedTcpSelect ⟨[⟨"A", 1, true⟩, ⟨"B", 2, false⟩], 1⟩).1 := by
  decide

/-- C5 amended: the TCP relay selects by plain unweighted round-robin
over the entire pool, indexing the full backend list by its own cursor
(a field of the TCP balancer state, separate from the HTTP balancer's
cursor) and ignoring the healthy flag; the cursor advances by one and
the pool is left unchanged. -/
theorem c5_tcp_plain_round_robin (st : TCPState) (h : st.backends ≠ []) :
    (tcp_get_next_backend st).1 =
      some (st.backends.getD (st.current_index % st.backends.length)
        { host := "", port := 0, healthy := true }) ∧
    (tcp_get_next_backend st).2.current_index = st.current_index + 1 ∧
    (tcp_get_next_backend st).2.backends = st.backends := by
  simp [tcp_get_next_backend, h]

/-- C5 amended witness: the plain rotation evaluated on a two-backend
pool at cursor 3. -/
theorem c5_tcp_plain_round_robin_witness :
    (tcp_get_next_backend ⟨[⟨"C", 9, true⟩, ⟨"D", 8, true⟩], 3⟩).1 =
      some ((⟨[⟨"C", 9, true⟩, ⟨"D", 8, true⟩], 3⟩ : TCPState).backends.getD
        (3 % 2) { host := "", port := 0, healthy := true }) ∧
    (tcp_get_next_backend ⟨[⟨"C", 9, true⟩, ⟨"D", 8, true⟩], 3⟩).2.current_index = 3 + 1 ∧
    (tcp_get_next_backend ⟨[⟨"C", 9, true⟩, ⟨"D", 8, true⟩], 3⟩).2.backends =
      [⟨"C", 9, true⟩, ⟨"D", 8, true⟩] :=
  c5_tcp_plain_round_robin ⟨[⟨"C", 9, true⟩, ⟨"D", 8, true⟩], 3⟩ (by decide)

/-- C6 counterexample: in the scenario where the client sends nothing
and closes while the backend has written 100 bytes and closed, the
schedule that lets the client-to-backend thread observe its
end-of-stream first makes that thread close both sockets, so the
backend-to-client thread aborts and the relay finishes having
delivered none of the 100 bytes to the client — refuting the claim
that every such connection delivers exactly the 100 bytes. -/
theorem c6_counterexample :
    (runSched [Dir.c2b, Dir.b2c] c6Init).b2c.delivered.length = 0 ∧
    handlerDone (runSched [Dir.c2b, Dir.b2c] c6Init) = true ∧
    (runSched [Dir.c2b, Dir.b2c] c6Init).clientClosed = true := by
  decide

/-- C6 amended: delivery of the backend's 100 bytes holds for the
schedules where the backend-to-client copy completes first — there the
client receives exactly the 100 bytes and the client socket is then
closed — and the connection handler finishes only once both directions
are done (after only one thread has finished the join is still
pending); but because a direction that finishes closes both sockets,
the client-to-backend direction finishing first can abort the
backend-to-client transfer, so the delivery is not guaranteed on every
schedule. -/
theorem c6_join_and_schedule_dependence :
    (runSched [Dir.b2c, Dir.b2c, Dir.c2b] c6Init).b2c.delivered = List.range 100 ∧
    (runSched [Dir.b2c, Dir.b2c, Dir.c2b] c6Init).clientClosed = true ∧
    handlerDone (runSched [Dir.b2c, Dir.b2c, Dir.c2b] c6Init) = true ∧
    handlerDone (runSched [Dir.b2c, Dir.b2c] c6Init) = false ∧
    (runSched [Dir.c2b, Dir.b2c] c6Init).b2c.delivered = [] := by
  decide

/-- C7: for every pool state with positive weights, get_next_backend
returns None exactly when every backend in the pool is unhealthy, and
for every nonempty buffered request the HTTP handler answers 503
Service Unavailable exactly under the same condition. -/
theorem c7_no_backend_iff (st : LBState) (hw : ∀ b ∈ st.backends, 0 < b.weight) :
    ((get_next_backend st).1 = none ↔ ∀ b ∈ st.backends, b.healthy = false) ∧
    (∀ data : List Char, ¬data.isEmpty →
      ((handleAfterRead st data).1 = HttpOutcome.respond503 ↔
        ∀ b ∈ st.backends, b.healthy = false)) := by
  refine ⟨gnb_none_iff st, fun data hd => ?_⟩
  rw [← gnb_none_iff st]
  unfold handleAfterRead
  simp [hd]
  cases hg : (get_next_backend st).1 <;> simp [hg]

/-- C7 witness: a pool holding one unhealthy backend of weight 1 yields
no selection, and the handler answers 503 on a one-byte request. -/
theorem c7_no_backend_iff_witness :
    (get_next_backend ⟨[{ freshBackend "A" 1 1 with healthy := false }], 0⟩).1 = none ∧
    (handleAfterRead ⟨[{ freshBackend "A" 1 1 with healthy := false }], 0⟩ ['x']).1 =
      HttpOutcome.respond503 := by
  have h := c7_no_backend_iff ⟨[{ freshBackend "A" 1 1 with healthy := false }], 0⟩ (by decide)
  exact ⟨h.1.mpr (by decide), (h.2 ['x'] (by decide)).mpr (by decide)⟩

/-- C8: from a state where the recipient's mailbox is absent or empty,
a successful send_message followed by a first draining get_messages
returns exactly one record carrying the sender, recipient and body
(with the server receipt timestamp), and a second immediate draining
poll returns the empty list. -/
theorem c8_send_poll_roundtrip (q : MsgQueue) (A B m ct st0 : String)
    (hB : lookupQ q B = none ∨ lookupQ q B = some [])
    (hs : (send_message q A B m false ct st0).2 = true) :
    (get_messages (send_message q A B m false ct st0).1 B true).1 =
      [{ sender := some A, recipient := some B, body := some m,
         encrypted := some false, timestamp := st0, delivered := true }] ∧
    (get_messages (get_messages (send_message q A B m false ct st0).1 B true).2 B true).1 =
      [] := by
  by_cases hBe : B = ""
  · subst hBe
    simp [send_message, handle_client] at hs
  · have hcur : (lookupQ q B).getD [] = [] := by
      rcases hB with h | h <;> simp [h]
    have hq1 : (send_message q A B m false ct st0).1 =
        setQ q B [{ sender := some A, recipient := some B, body := some m,
                    encrypted := some false, timestamp := st0, delivered := true }] := by
      simp [send_message, handle_client, hBe, hcur]
    rw [hq1]
    have hl1 := lookupQ_setQ_same q B
      [{ sender := some A, recipient := some B, body := some m,
         encrypted := some false, timestamp := st0, delivered := true }]
    constructor
    · simp [get_messages, hl1]
    · simp [get_messages, hl1]
      have hl2 := lookupQ_setQ_same
        (setQ q B [{ sender := some A, recipient := some B, body := some m,
                     encrypted := some false, timestamp := st0, delivered := true }]) B []
      simp [hl2]

/-- C8 witness: the round trip evaluated from the empty queue with
sender alice, recipient bob and body hello. -/
theorem c8_send_poll_roundtrip_witness :
    (get_messages (send_message [] "alice" "bob" "hello" false "t0" "t1").1 "bob" true).1 =
      [{ sender := some "alice", recipient := some "bob", body := some "hello",
         encrypted := some false, timestamp := "t1", delivered := true }] ∧
    (get_messages
        (get_messages (send_message [] "alice" "bob" "hello" false "t0" "t1").1 "bob" true).2
        "bob" true).1 = [] :=
  c8_send_poll_roundtrip [] "alice" "bob" "hello" "t0" "t1" (Or.inl rfl) (by decide)

/-- C9 counterexample: a frame whose recipient field is present but
empty parses fine, yet the router replies with the No-recipient error
acknowledgment and enqueues nothing, contradicting the claim that any
frame with the recipient field present is enqueued and acknowledged
with success. -/
theorem c9_counterexample :
    (handle_client [] (Inbound.frame
        { sender := some "a", recipient := some "", body := some "hi",
          encrypted := some false, timestamp := some "t" }) "T").1 = [] ∧
    (handle_client [] (Inbound.frame
        { sender := some "a", recipient := some "", body := some "hi",
          encrypted := some false, timestamp := some "t" }) "T").2 =
      some { status := "error", message := "No recipient" } ∧
    (handle_client [] (Inbound.frame
        { sender := some "a", recipient := some "", body := some "hi",
          encrypted := some false, timestamp := some "t" }) "T").2 ≠
      some { status := "success", message := "Delivered" } := by
  decide

/-- C9 amended: an unparseable payload is answered with an error
acknowledgment and nothing is enqueued; likewise a frame whose
recipient is absent or empty; a frame with a nonempty recipient has
exactly one record appended to that recipient's mailbox, with the
timestamp replaced by the server's receipt time, and is acknowledged
with success. -/
theorem c9_router_frame_handling (q : MsgQueue) (now : String) :
    (∀ e, handle_client q (Inbound.malformed e) now =
        (q, some { status := "error", message := e })) ∧
    (∀ f : Frame, f.recipient = none →
        handle_client q (Inbound.frame f) now =
          (q, some { status := "error", message := "No recipient" })) ∧
    (∀ (f : Frame) (r : String), f.recipient = some r → r ≠ "" →
        handle_client q (Inbound.frame f) now =
          (setQ q r ((lookupQ q r).getD [] ++
              [{ sender := f.sender, recipient := f.recipient, body := f.body,
                 encrypted := f.encrypted, timestamp := now, delivered := true }]),
           some { status := "success", message := "Delivered" })) := by
  refine ⟨fun e => rfl, fun f hf => ?_, fun f r hf hr => ?_⟩
  · simp [handle_client, hf]
  · simp [handle_client, hf, hr]

/-- C9 amended witness: the enqueue branch evaluated on the empty queue
for a frame addressed to bob carrying a client timestamp that the
stored record does not keep. -/
theorem c9_router_frame_handling_witness :
    handle_client [] (Inbound.frame
        { sender := some "a", recipient := some "bob", body := some "m",
          encrypted := some true, timestamp := some "client-time" }) "T" =
      ([("bob", [{ sender := some "a", recipient := some "bob", body := some "m",
                   encrypted := some true, timestamp := "T", delivered := true }])],
       some { status := "success", message := "Delivered" }) :=
  (c9_router_frame_handling [] "T").2.2
    { sender := some "a", recipient := some "bob", body := some "m",
      encrypted := some true, timestamp := some "client-time" } "bob" rfl (by decide)

/-- C10: whenever the pool is empty or holds no healthy backend,
get_next_backend returns None and the state — the scheduling cursor
and every backend — is returned unchanged, so the cursor advances only
on an actual selection. -/
theorem c10_none_leaves_state_unchanged (st : LBState)
    (h : st.backends = [] ∨ ∀ b ∈ st.backends, b.healthy = false) :
    get_next_backend st = (none, st) := by
  unfold get_next_backend
  rcases h with h | h
  · simp [h]
  · have hfe : st.backends.filter (fun b => b.healthy) = [] := by
      rw [List.filter_eq_nil_iff]
      intro b hb
      simp [h b hb]
    by_cases he : st.backends.isEmpty <;> simp [he, hfe]

/-- C10 witness: a pool of one unhealthy backend at cursor 5 is
returned untouched together with None. -/
theorem c10_none_leaves_state_unchanged_witness :
    get_next_backend ⟨[{ freshBackend "Z" 4 2 with healthy := false }], 5⟩ =
      (none, ⟨[{ freshBackend "Z" 4 2 with healthy := false }], 5⟩) :=
  c10_none_leaves_state_unchanged ⟨[{ freshBackend "Z" 4 2 with healthy := false }], 5⟩
    (Or.inr (by decide))
